import Mathlib

/-!
Verification of the detection-debouncing state machine of the
elephant-detection GUI suite.

The embedded code is `update_detection_display` from
`src/python_gui/simple_elephant_gui.py` (lines 464-529), duplicated
near-identically in `src/python_gui/advanced_elephant_gui.py`
(lines 654-720) and `src/tests/test_detection_logic.py`, together with
the tier-mapping part of `update_detection_indicator` from
`src/python_gui/noise_logger_gui.py` (lines 970-1009).

Timestamps and confidences are modelled as rationals; the Python code
only adds, subtracts and compares them, so the order structure is all
that matters.
-/

/-- The alert tier shown by the GUI: `no_elephant`, `elephant_low`,
`elephant_medium`, `elephant_high` in the Python strings. -/
inductive Tier
  | none
  | low
  | medium
  | high
  deriving DecidableEq, Repr

/-- The debouncer's mutable attributes, as initialised in
`SimpleElephantGUI.__init__` (simple_elephant_gui.py lines 38-42):
`detection_timer_start`, `detection_timer_duration`,
`last_detection_state`, `detection_locked`. -/
structure DebounceState where
  detection_timer_start : ℚ
  detection_timer_duration : ℚ
  last_detection_state : Tier
  detection_locked : Bool
  deriving DecidableEq, Repr

/-- The spec's `locked_until`: the code never stores it, it is always
`detection_timer_start + detection_timer_duration` (the code tests
`current_time - detection_timer_start >= detection_timer_duration`). -/
def DebounceState.locked_until (s : DebounceState) : ℚ :=
  s.detection_timer_start + s.detection_timer_duration

/-- The spec's `active_since` is the code's `detection_timer_start`. -/
def DebounceState.active_since (s : DebounceState) : ℚ :=
  s.detection_timer_start

/-- The spec's `tier` is the code's `last_detection_state`. -/
def DebounceState.tier (s : DebounceState) : Tier :=
  s.last_detection_state

/-- Initial state from `__init__`: `detection_timer_start = 0`,
`detection_timer_duration = 5.0`, `last_detection_state = "no_elephant"`,
`detection_locked = False`. -/
def initState : DebounceState :=
  { detection_timer_start := 0
    detection_timer_duration := 5
    last_detection_state := Tier.none
    detection_locked := false }

/-- Candidate-tier computation of `update_detection_display` in
simple_elephant_gui.py lines 468-477: `elephant` with confidence
`> 0.5` is high, `> 0.3` medium, otherwise low; any other
classification is `no_elephant`. -/
def new_detection_state_simple (classification : String) (confidence : ℚ) : Tier :=
  if classification = "elephant" then
    if confidence > 1/2 then Tier.high
    else if confidence > 3/10 then Tier.medium
    else Tier.low
  else Tier.none

/-- Candidate-tier computation of `update_detection_display` in
advanced_elephant_gui.py lines 658-667; textually identical to the
simple GUI's. -/
def new_detection_state_advanced (classification : String) (confidence : ℚ) : Tier :=
  if classification = "elephant" then
    if confidence > 1/2 then Tier.high
    else if confidence > 3/10 then Tier.medium
    else Tier.low
  else Tier.none

/-- Tier mapping of `update_detection_indicator` in
noise_logger_gui.py lines 970-1009: `elephant` with confidence `> 0.8`
is high, `elephant` with confidence `> 0.6` is medium, any other
`elephant` is low, anything else none. -/
def noise_logger_indicator_tier (classification : String) (confidence : ℚ) : Tier :=
  if classification = "elephant" ∧ confidence > 4/5 then Tier.high
  else if classification = "elephant" ∧ confidence > 3/5 then Tier.medium
  else if classification = "elephant" then Tier.low
  else Tier.none

/-- One call of `update_detection_display`
(simple_elephant_gui.py lines 464-518) on state `s` with the current
classification, confidence and `current_time = now`.  Returns the new
state together with the spec's `transitioned` flag, which is true
exactly in the two branches where the displayed tier changes: the
new-detection-period branch (lines 479-496) and the release branch
(lines 503-507). -/
def update_detection_display (s : DebounceState) (classification : String)
    (confidence : ℚ) (now : ℚ) : DebounceState × Bool :=
  let nds := new_detection_state_simple classification confidence
  if nds ≠ Tier.none ∧ (s.detection_locked = false ∨ nds ≠ s.last_detection_state) then
    -- start new 5-second detection period (lines 480-485)
    ({ s with detection_timer_start := now
              detection_locked := true
              last_detection_state := nds }, true)
  else if s.detection_locked then
    if now - s.detection_timer_start ≥ s.detection_timer_duration then
      if nds = Tier.none then
        -- 5-second period finished, no elephant (lines 503-507)
        ({ s with detection_locked := false
                  last_detection_state := Tier.none }, true)
      else
        -- continue with current detection if still active (lines 508-512)
        ({ s with detection_timer_start := now
                  detection_locked := true
                  last_detection_state := nds }, false)
    else (s, false)
  else if nds = Tier.none then
    -- no detection lock, show current state immediately (lines 514-518)
    ({ s with last_detection_state := Tier.none }, false)
  else (s, false)

/-- One observation fed to the debouncer: the decoded
(classification, confidence) pair plus the `time.time()` value at the
call. -/
structure Obs where
  classification : String
  confidence : ℚ
  now : ℚ
  deriving Repr

/-- One `update_detection_display` call, keeping only the state. -/
def stepObs (s : DebounceState) (o : Obs) : DebounceState :=
  (update_detection_display s o.classification o.confidence o.now).1

/-- Run a sequence of `update_detection_display` calls. -/
def runFrom (s : DebounceState) : List Obs → DebounceState
  | [] => s
  | o :: rest => runFrom (stepObs s o) rest

/-- All states visited by a call sequence, the start state included. -/
def states (s : DebounceState) : List Obs → List DebounceState
  | [] => [s]
  | o :: rest => s :: states (stepObs s o) rest

/-- Each call of a sequence with the states just before and after it. -/
def runTriples (s : DebounceState) : List Obs → List (DebounceState × Obs × DebounceState)
  | [] => []
  | o :: rest => (s, o, stepObs s o) :: runTriples (stepObs s o) rest

/-- The `now` values of a call sequence are non-decreasing and bounded
below by `t` (the monotonic-clock precondition of the spec). -/
def Chrono : ℚ → List Obs → Prop
  | _, [] => True
  | t, o :: rest => t ≤ o.now ∧ Chrono o.now rest

/-- The representation invariant of the Python attributes: the lock
flag is set exactly when a non-`no_elephant` state is displayed. -/
def LockTierInv (s : DebounceState) : Prop :=
  s.detection_locked = true ↔ s.last_detection_state ≠ Tier.none

instance (s : DebounceState) : Decidable (LockTierInv s) := by
  unfold LockTierInv
  infer_instance

/-- The state reached from `initState` by
`observe("elephant", 0.85, 0)`: tier high, locked, window `[0, 5]`. -/
def sHigh0 : DebounceState :=
  { detection_timer_start := 0
    detection_timer_duration := 5
    last_detection_state := Tier.high
    detection_locked := true }

/-- The tier mapping as the specification words it: HIGH for the
positive class with confidence above 0.5, MEDIUM for the positive
class with confidence in (0.3, 0.5], LOW for the positive class with
confidence at most 0.3, NONE for any other label. -/
def spec_tier_map (label : String) (confidence : ℚ) : Tier :=
  if label = "elephant" ∧ confidence > 1/2 then Tier.high
  else if label = "elephant" ∧ 3/10 < confidence ∧ confidence ≤ 1/2 then Tier.medium
  else if label = "elephant" ∧ confidence ≤ 3/10 then Tier.low
  else Tier.none

/-- The same shape of mapping with the noise-logger GUI's cutoffs 0.8
and 0.6, for the amended form of the tier-mapping claim. -/
def spec_tier_map_noise (label : String) (confidence : ℚ) : Tier :=
  if label = "elephant" ∧ confidence > 4/5 then Tier.high
  else if label = "elephant" ∧ 3/5 < confidence ∧ confidence ≤ 4/5 then Tier.medium
  else if label = "elephant" ∧ confidence ≤ 3/5 then Tier.low
  else Tier.none

/-! ## Branch lemmas for `update_detection_display` -/

/-- New-detection-period branch (lines 479-496): a non-NONE candidate
with the lock clear or a different displayed tier restarts the window. -/
theorem observe_new_episode (s : DebounceState) (c : String) (conf now : ℚ)
    (h1 : new_detection_state_simple c conf ≠ Tier.none)
    (h2 : s.detection_locked = false ∨ new_detection_state_simple c conf ≠ s.last_detection_state) :
    update_detection_display s c conf now =
      ({ s with detection_timer_start := now
                detection_locked := true
                last_detection_state := new_detection_state_simple c conf }, true) := by
  simp only [update_detection_display]
  rw [if_pos ⟨h1, h2⟩]

/-- Release branch (lines 503-507): dwell elapsed and candidate NONE. -/
theorem observe_release (s : DebounceState) (c : String) (conf now : ℚ)
    (h1 : new_detection_state_simple c conf = Tier.none)
    (hL : s.detection_locked = true)
    (hT : now - s.detection_timer_start ≥ s.detection_timer_duration) :
    update_detection_display s c conf now =
      ({ s with detection_locked := false
                last_detection_state := Tier.none }, true) := by
  simp only [update_detection_display]
  rw [if_neg (by simp [h1]), if_pos hL, if_pos hT, if_pos h1]

/-- Re-lock branch (lines 508-512): dwell elapsed, same tier persists. -/
theorem observe_relock (s : DebounceState) (c : String) (conf now : ℚ)
    (h1 : new_detection_state_simple c conf ≠ Tier.none)
    (hL : s.detection_locked = true)
    (hSame : new_detection_state_simple c conf = s.last_detection_state)
    (hT : now - s.detection_timer_start ≥ s.detection_timer_duration) :
    update_detection_display s c conf now =
      ({ s with detection_timer_start := now
                detection_locked := true
                last_detection_state := new_detection_state_simple c conf }, false) := by
  simp only [update_detection_display]
  rw [if_neg (by simp [hL, hSame]), if_pos hL, if_pos hT, if_neg h1]

/-- Mid-dwell branch (implicit else of lines 499-512): locked and the
dwell has not elapsed, nothing happens. -/
theorem observe_middwell (s : DebounceState) (c : String) (conf now : ℚ)
    (hC : ¬(new_detection_state_simple c conf ≠ Tier.none ∧
        (s.detection_locked = false ∨ new_detection_state_simple c conf ≠ s.last_detection_state)))
    (hL : s.detection_locked = true)
    (hT : ¬(now - s.detection_timer_start ≥ s.detection_timer_duration)) :
    update_detection_display s c conf now = (s, false) := by
  simp only [update_detection_display]
  rw [if_neg hC, if_pos hL, if_neg hT]

/-- No-lock no-candidate branch (lines 514-518). -/
theorem observe_noop (s : DebounceState) (c : String) (conf now : ℚ)
    (h1 : new_detection_state_simple c conf = Tier.none)
    (hL : s.detection_locked = false) :
    update_detection_display s c conf now =
      ({ s with last_detection_state := Tier.none }, false) := by
  simp only [update_detection_display]
  rw [if_neg (by simp [h1]), if_neg (by simp [hL]), if_pos h1]

/-! ## Candidate-tier facts -/

theorem nds_not_elephant (c : String) (h : c ≠ "elephant") (conf : ℚ) :
    new_detection_state_simple c conf = Tier.none := by
  simp [new_detection_state_simple, h]

theorem nds_elephant_ne_none (conf : ℚ) :
    new_detection_state_simple "elephant" conf ≠ Tier.none := by
  simp only [new_detection_state_simple, if_pos rfl]
  split_ifs <;> decide

theorem nds_elephant_085 : new_detection_state_simple "elephant" (17/20) = Tier.high := by
  norm_num [new_detection_state_simple]

theorem nds_elephant_035 : new_detection_state_simple "elephant" (7/20) = Tier.medium := by
  norm_num [new_detection_state_simple]

theorem nds_negative (conf : ℚ) : new_detection_state_simple "negative" conf = Tier.none :=
  nds_not_elephant "negative" (by decide) conf

/-! ## Frame and invariant lemmas -/

/-- No branch of `update_detection_display` writes
`detection_timer_duration` (the Python never reassigns it after
`__init__`). -/
theorem step_duration (s : DebounceState) (c : String) (conf now : ℚ) :
    (update_detection_display s c conf now).1.detection_timer_duration =
      s.detection_timer_duration := by
  simp only [update_detection_display]
  split_ifs <;> rfl

/-- Every branch either keeps `detection_timer_start` or sets it to the
current call's `now`. -/
theorem step_tstart (s : DebounceState) (c : String) (conf now : ℚ) :
    (update_detection_display s c conf now).1.detection_timer_start =
        s.detection_timer_start ∨
      (update_detection_display s c conf now).1.detection_timer_start = now := by
  simp only [update_detection_display]
  split_ifs <;> simp

/-- Every branch leaves the displayed tier at the candidate tier, the
old tier, or `no_elephant`. -/
theorem step_last (s : DebounceState) (c : String) (conf now : ℚ) :
    (update_detection_display s c conf now).1.last_detection_state =
        new_detection_state_simple c conf ∨
      (update_detection_display s c conf now).1.last_detection_state =
        s.last_detection_state ∨
      (update_detection_display s c conf now).1.last_detection_state = Tier.none := by
  simp only [update_detection_display]
  split_ifs <;> simp

/-- One call preserves the lock/tier agreement invariant. -/
theorem lockTierInv_step (s : DebounceState) (c : String) (conf now : ℚ)
    (h : LockTierInv s) :
    LockTierInv (update_detection_display s c conf now).1 := by
  by_cases hC : new_detection_state_simple c conf ≠ Tier.none ∧
      (s.detection_locked = false ∨ new_detection_state_simple c conf ≠ s.last_detection_state)
  · rw [observe_new_episode s c conf now hC.1 hC.2]
    simpa [LockTierInv] using hC.1
  · by_cases hL : s.detection_locked = true
    · by_cases hT : now - s.detection_timer_start ≥ s.detection_timer_duration
      · by_cases hN : new_detection_state_simple c conf = Tier.none
        · rw [observe_release s c conf now hN hL hT]
          simp [LockTierInv]
        · push_neg at hC
          rw [observe_relock s c conf now hN hL (hC hN).2 hT]
          simpa [LockTierInv] using hN
      · rw [observe_middwell s c conf now hC hL hT]
        exact h
    · have hL' : s.detection_locked = false := by
        cases hb : s.detection_locked
        · rfl
        · exact absurd hb hL
      by_cases hN : new_detection_state_simple c conf = Tier.none
      · rw [observe_noop s c conf now hN hL']
        simp [LockTierInv, hL']
      · exact absurd ⟨hN, Or.inl hL'⟩ hC

/-- The lock/tier agreement invariant holds at every state of every run
started in a state satisfying it. -/
theorem lockTierInv_states (obs : List Obs) (s : DebounceState) (h : LockTierInv s) :
    ∀ s' ∈ states s obs, LockTierInv s' := by
  induction obs generalizing s with
  | nil =>
      intro s' hs'
      simp only [states, List.mem_singleton] at hs'
      exact hs' ▸ h
  | cons o rest ih =>
      intro s' hs'
      simp only [states, List.mem_cons] at hs'
      rcases hs' with rfl | hs'
      · exact h
      · exact ih (stepObs s o) (lockTierInv_step s _ _ _ h) s' hs'

theorem step_init_elephant85 : stepObs initState ⟨"elephant", 17/20, 0⟩ = sHigh0 := by
  rw [stepObs, observe_new_episode initState "elephant" (17/20) 0
    (by rw [nds_elephant_085]; decide) (Or.inl rfl)]
  rw [nds_elephant_085]
  rfl

/-! ## Claims -/

/-- C9: starting from the initial state, after every completed call to
the debounce update the lock flag and the displayed tier agree:
`detection_locked` is true iff `last_detection_state` is a non-NONE
tier. -/
theorem C9_lock_tier_agreement (obs : List Obs) :
    ∀ s' ∈ states initState obs, LockTierInv s' :=
  lockTierInv_states obs initState (by decide)

theorem C9_lock_tier_agreement_witness :
    LockTierInv sHigh0 :=
  C9_lock_tier_agreement [⟨"elephant", 17/20, 0⟩] sHigh0
    (by simp [states, step_init_elephant85])

/-- C1 counterexample: the claim quantifies over every observation in
the dwell window, but a non-NONE candidate tier differing from the
current one preempts the lock mid-dwell (lines 479-485): from the
locked HIGH state with window `[0, 5]`, the observation
`("elephant", 0.35)` at `now = 1 < locked_until = 5` changes the tier
to MEDIUM and reports a transition. -/
theorem C1_preemption_counterexample :
    sHigh0.tier ≠ Tier.none ∧ LockTierInv sHigh0 ∧
    (1 : ℚ) < sHigh0.locked_until ∧
    (update_detection_display sHigh0 "elephant" (7/20) 1).1.tier ≠ sHigh0.tier ∧
    (update_detection_display sHigh0 "elephant" (7/20) 1).2 = true := by
  have h : update_detection_display sHigh0 "elephant" (7/20) 1 =
      ({ sHigh0 with detection_timer_start := 1
                     detection_locked := true
                     last_detection_state := Tier.medium }, true) := by
    rw [observe_new_episode sHigh0 "elephant" (7/20) 1
      (by rw [nds_elephant_035]; decide) (Or.inr (by rw [nds_elephant_035]; decide))]
    rw [nds_elephant_035]
  refine ⟨by decide, by decide, by norm_num [sHigh0, DebounceState.locked_until], ?_, ?_⟩
  · rw [h]; decide
  · rw [h]

/-- C1 (amended): for every state satisfying the lock/tier agreement
invariant with a non-NONE tier, an observation arriving inside the
dwell window whose candidate tier is NONE *or equal to the current
tier* leaves the state unchanged and reports no transition.  (The
unamended universal over all observations fails: a differing non-NONE
candidate preempts the lock, see the counterexample.) -/
theorem C1_core_debounce (s : DebounceState) (c : String) (conf now : ℚ)
    (hInv : LockTierInv s) (hT : s.tier ≠ Tier.none)
    (hNow : now < s.locked_until)
    (hCand : new_detection_state_simple c conf = Tier.none ∨
      new_detection_state_simple c conf = s.tier) :
    update_detection_display s c conf now = (s, false) := by
  have hL : s.detection_locked = true := hInv.mpr hT
  have hC : ¬(new_detection_state_simple c conf ≠ Tier.none ∧
      (s.detection_locked = false ∨
        new_detection_state_simple c conf ≠ s.last_detection_state)) := by
    rcases hCand with h | h
    · exact fun hc => hc.1 h
    · rintro ⟨h1, h2 | h2⟩
      · simp [hL] at h2
      · exact h2 h
  have hT' : ¬(now - s.detection_timer_start ≥ s.detection_timer_duration) := by
    simp only [DebounceState.locked_until] at hNow
    intro hge
    rw [ge_iff_le] at hge
    linarith
  exact observe_middwell s c conf now hC hL hT'

theorem C1_core_debounce_witness :
    LockTierInv sHigh0 ∧ sHigh0.tier ≠ Tier.none ∧ (2 : ℚ) < sHigh0.locked_until ∧
    new_detection_state_simple "negative" (1/10) = Tier.none ∧
    update_detection_display sHigh0 "negative" (1/10) 2 = (sHigh0, false) :=
  ⟨by decide, by decide, by norm_num [sHigh0, DebounceState.locked_until],
   nds_negative _,
   C1_core_debounce sHigh0 "negative" (1/10) 2 (by decide) (by decide)
     (by norm_num [sHigh0, DebounceState.locked_until]) (Or.inl (nds_negative _))⟩

/-- C2: from any invariant-satisfying state with a non-NONE tier, an
observation with candidate tier NONE arriving at or after
`locked_until` releases the lock (tier NONE, transition reported); in
particular `observe("elephant", 0.85, 0)` then
`observe("negative", 0.1, 5.1)` ends with tier NONE and a reported
transition. -/
theorem C2_release_after_dwell :
    (∀ (s : DebounceState) (c : String) (conf now : ℚ),
      LockTierInv s → s.tier ≠ Tier.none →
      new_detection_state_simple c conf = Tier.none →
      now ≥ s.locked_until →
      (update_detection_display s c conf now).1.tier = Tier.none ∧
      (update_detection_display s c conf now).2 = true) ∧
    (update_detection_display (stepObs initState ⟨"elephant", 17/20, 0⟩)
        "negative" (1/10) (51/10)).1.tier = Tier.none ∧
    (update_detection_display (stepObs initState ⟨"elephant", 17/20, 0⟩)
        "negative" (1/10) (51/10)).2 = true := by
  constructor
  · intro s c conf now hInv hT hN hge
    have hL : s.detection_locked = true := hInv.mpr hT
    have hT' : now - s.detection_timer_start ≥ s.detection_timer_duration := by
      simp only [DebounceState.locked_until] at hge
      rw [ge_iff_le] at hge ⊢
      linarith
    rw [observe_release s c conf now hN hL hT']
    exact ⟨rfl, rfl⟩
  · rw [step_init_elephant85,
      observe_release sHigh0 "negative" (1/10) (51/10) (nds_negative _) rfl
        (by norm_num [sHigh0])]
    exact ⟨rfl, rfl⟩

theorem C2_release_after_dwell_witness :
    LockTierInv sHigh0 ∧ sHigh0.tier ≠ Tier.none ∧
    new_detection_state_simple "negative" (1/10) = Tier.none ∧
    (51/10 : ℚ) ≥ sHigh0.locked_until ∧
    (update_detection_display sHigh0 "negative" (1/10) (51/10)).1.tier = Tier.none ∧
    (update_detection_display sHigh0 "negative" (1/10) (51/10)).2 = true :=
  ⟨by decide, by decide, nds_negative _,
   by norm_num [sHigh0, DebounceState.locked_until],
   C2_release_after_dwell.1 sHigh0 "negative" (1/10) (51/10) (by decide) (by decide)
     (nds_negative _) (by norm_num [sHigh0, DebounceState.locked_until])⟩

/-- C3: a non-NONE candidate tier with the current tier NONE or
different immediately takes over: tier becomes the candidate,
`active_since = now`, `locked_until = now + dwell`, transition
reported — even mid-dwell; in particular `observe("elephant", 0.85, 0)`
then `observe("elephant", 0.35, 1)` yields tier MEDIUM with
`locked_until = 6`. -/
theorem C3_escalation_preempts_lock :
    (∀ (s : DebounceState) (c : String) (conf now : ℚ),
      new_detection_state_simple c conf ≠ Tier.none →
      (s.tier = Tier.none ∨ new_detection_state_simple c conf ≠ s.tier) →
      (update_detection_display s c conf now).1.tier =
          new_detection_state_simple c conf ∧
      (update_detection_display s c conf now).1.active_since = now ∧
      (update_detection_display s c conf now).1.locked_until =
          now + s.detection_timer_duration ∧
      (update_detection_display s c conf now).2 = true) ∧
    update_detection_display (stepObs initState ⟨"elephant", 17/20, 0⟩)
        "elephant" (7/20) 1 =
      ({ detection_timer_start := 1
         detection_timer_duration := 5
         last_detection_state := Tier.medium
         detection_locked := true }, true) ∧
    (update_detection_display (stepObs initState ⟨"elephant", 17/20, 0⟩)
        "elephant" (7/20) 1).1.locked_until = 6 := by
  have hconc : update_detection_display (stepObs initState ⟨"elephant", 17/20, 0⟩)
      "elephant" (7/20) 1 =
      ({ detection_timer_start := 1
         detection_timer_duration := 5
         last_detection_state := Tier.medium
         detection_locked := true }, true) := by
    rw [step_init_elephant85,
      observe_new_episode sHigh0 "elephant" (7/20) 1
        (by rw [nds_elephant_035]; decide) (Or.inr (by rw [nds_elephant_035]; decide)),
      nds_elephant_035]
    rfl
  refine ⟨?_, hconc, by rw [hconc]; norm_num [DebounceState.locked_until]⟩
  intro s c conf now h1 hOr
  have h2 : new_detection_state_simple c conf ≠ s.last_detection_state := by
    rcases hOr with h | h
    · rw [show s.last_detection_state = Tier.none from h]
      exact h1
    · exact h
  rw [observe_new_episode s c conf now h1 (Or.inr h2)]
  exact ⟨rfl, rfl, rfl, rfl⟩

theorem C3_escalation_preempts_lock_witness :
    new_detection_state_simple "elephant" (7/20) ≠ Tier.none ∧
    (sHigh0.tier = Tier.none ∨ new_detection_state_simple "elephant" (7/20) ≠ sHigh0.tier) ∧
    (update_detection_display sHigh0 "elephant" (7/20) 1).1.tier =
        new_detection_state_simple "elephant" (7/20) ∧
    (update_detection_display sHigh0 "elephant" (7/20) 1).1.active_since = 1 ∧
    (update_detection_display sHigh0 "elephant" (7/20) 1).1.locked_until =
        1 + sHigh0.detection_timer_duration ∧
    (update_detection_display sHigh0 "elephant" (7/20) 1).2 = true :=
  ⟨by rw [nds_elephant_035]; decide,
   Or.inr (by rw [nds_elephant_035]; decide),
   C3_escalation_preempts_lock.1 sHigh0 "elephant" (7/20) 1
     (by rw [nds_elephant_035]; decide) (Or.inr (by rw [nds_elephant_035]; decide))⟩

/-- C4: from any invariant-satisfying state with a non-NONE tier, an
observation mapping to the same tier at or after `locked_until` keeps
the tier, restarts the window (`active_since = now`,
`locked_until = now + dwell`) and reports no transition; in particular
`observe("elephant", 0.85, 0)` then `observe("elephant", 0.85, 5.1)`
keeps tier HIGH with `locked_until = 10.1`. -/
theorem C4_sustained_relock :
    (∀ (s : DebounceState) (c : String) (conf now : ℚ),
      LockTierInv s → s.tier ≠ Tier.none →
      new_detection_state_simple c conf = s.tier →
      now ≥ s.locked_until →
      (update_detection_display s c conf now).1.tier = s.tier ∧
      (update_detection_display s c conf now).1.active_since = now ∧
      (update_detection_display s c conf now).1.locked_until =
          now + s.detection_timer_duration ∧
      (update_detection_display s c conf now).2 = false) ∧
    update_detection_display (stepObs initState ⟨"elephant", 17/20, 0⟩)
        "elephant" (17/20) (51/10) =
      ({ detection_timer_start := 51/10
         detection_timer_duration := 5
         last_detection_state := Tier.high
         detection_locked := true }, false) ∧
    (update_detection_display (stepObs initState ⟨"elephant", 17/20, 0⟩)
        "elephant" (17/20) (51/10)).1.locked_until = 101/10 := by
  have hconc : update_detection_display (stepObs initState ⟨"elephant", 17/20, 0⟩)
      "elephant" (17/20) (51/10) =
      ({ detection_timer_start := 51/10
         detection_timer_duration := 5
         last_detection_state := Tier.high
         detection_locked := true }, false) := by
    rw [step_init_elephant85,
      observe_relock sHigh0 "elephant" (17/20) (51/10)
        (by rw [nds_elephant_085]; decide) rfl (by rw [nds_elephant_085]; rfl)
        (by norm_num [sHigh0]),
      nds_elephant_085]
    rfl
  refine ⟨?_, hconc, by rw [hconc]; norm_num [DebounceState.locked_until]⟩
  intro s c conf now hInv hT hSame hge
  have hL : s.detection_locked = true := hInv.mpr hT
  have h1 : new_detection_state_simple c conf ≠ Tier.none := by
    rw [hSame]; exact hT
  have hT' : now - s.detection_timer_start ≥ s.detection_timer_duration := by
    simp only [DebounceState.locked_until] at hge
    rw [ge_iff_le] at hge ⊢
    linarith
  rw [observe_relock s c conf now h1 hL hSame hT']
  exact ⟨hSame, rfl, rfl, rfl⟩

theorem C4_sustained_relock_witness :
    LockTierInv sHigh0 ∧ sHigh0.tier ≠ Tier.none ∧
    new_detection_state_simple "elephant" (17/20) = sHigh0.tier ∧
    (51/10 : ℚ) ≥ sHigh0.locked_until ∧
    (update_detection_display sHigh0 "elephant" (17/20) (51/10)).1.tier = sHigh0.tier ∧
    (update_detection_display sHigh0 "elephant" (17/20) (51/10)).1.active_since = 51/10 ∧
    (update_detection_display sHigh0 "elephant" (17/20) (51/10)).1.locked_until =
        51/10 + sHigh0.detection_timer_duration ∧
    (update_detection_display sHigh0 "elephant" (17/20) (51/10)).2 = false :=
  ⟨by decide, by decide, by rw [nds_elephant_085]; rfl,
   by norm_num [sHigh0, DebounceState.locked_until],
   C4_sustained_relock.1 sHigh0 "elephant" (17/20) (51/10) (by decide) (by decide)
     (by rw [nds_elephant_085]; rfl)
     (by norm_num [sHigh0, DebounceState.locked_until])⟩

/-- Whenever a call writes `detection_timer_start`, the new lock
deadline is `now + dwell` and lies at or after `now` (for a
non-negative dwell). -/
theorem step_lock_deadline (s : DebounceState) (o : Obs)
    (hd : 0 ≤ s.detection_timer_duration) :
    (stepObs s o).detection_timer_start = s.detection_timer_start ∨
      ((stepObs s o).locked_until = o.now + s.detection_timer_duration ∧
        o.now ≤ (stepObs s o).locked_until) := by
  rcases step_tstart s o.classification o.confidence o.now with h | h
  · exact Or.inl h
  · refine Or.inr ⟨?_, ?_⟩
    · show (stepObs s o).detection_timer_start + (stepObs s o).detection_timer_duration = _
      simp only [stepObs]
      rw [h, step_duration]
    · show o.now ≤ (stepObs s o).detection_timer_start + (stepObs s o).detection_timer_duration
      simp only [stepObs]
      rw [h, step_duration]
      linarith

/-- Trace version of `step_lock_deadline`: along any run the dwell
duration is never reassigned, so every write of the lock deadline is
`now + dwell ≥ now`. -/
theorem runTriples_lock_deadline (obs : List Obs) (s : DebounceState)
    (hd : 0 ≤ s.detection_timer_duration) :
    ∀ trip ∈ runTriples s obs,
      trip.2.2.detection_timer_start = trip.1.detection_timer_start ∨
        (trip.2.2.locked_until = trip.2.1.now + trip.1.detection_timer_duration ∧
          trip.2.1.now ≤ trip.2.2.locked_until) := by
  induction obs generalizing s with
  | nil => intro trip h; simp [runTriples] at h
  | cons o rest ih =>
      intro trip h
      simp only [runTriples, List.mem_cons] at h
      rcases h with rfl | h
      · exact step_lock_deadline s o hd
      · have hd' : 0 ≤ (stepObs s o).detection_timer_duration := by
          have he : (stepObs s o).detection_timer_duration = s.detection_timer_duration :=
            step_duration s o.classification o.confidence o.now
          rw [he]; exact hd
        exact ih (stepObs s o) hd' trip h

/-- A run's state list always starts with the start state. -/
theorem states_head (s : DebounceState) (obs : List Obs) :
    ∃ l, states s obs = s :: l := by
  cases obs <;> exact ⟨_, rfl⟩

/-- One call neither lowers the lock deadline while a tier stays
displayed nor lets `detection_timer_start` overtake the clock. -/
theorem step_mono (s : DebounceState) (o : Obs) (hInv : LockTierInv s)
    (hstart : s.detection_locked = true → s.detection_timer_start ≤ o.now) :
    (s.last_detection_state ≠ Tier.none →
      (stepObs s o).last_detection_state ≠ Tier.none →
      s.locked_until ≤ (stepObs s o).locked_until) ∧
    ((stepObs s o).detection_locked = true →
      (stepObs s o).detection_timer_start ≤ o.now) := by
  simp only [stepObs]
  by_cases hC : new_detection_state_simple o.classification o.confidence ≠ Tier.none ∧
      (s.detection_locked = false ∨
        new_detection_state_simple o.classification o.confidence ≠ s.last_detection_state)
  · rw [observe_new_episode s _ _ _ hC.1 hC.2]
    refine ⟨fun hT _ => ?_, fun _ => le_refl _⟩
    have := hstart (hInv.mpr hT)
    simp only [DebounceState.locked_until]
    linarith
  · by_cases hL : s.detection_locked = true
    · by_cases hT : o.now - s.detection_timer_start ≥ s.detection_timer_duration
      · by_cases hN : new_detection_state_simple o.classification o.confidence = Tier.none
        · rw [observe_release s _ _ _ hN hL hT]
          exact ⟨fun _ h => absurd rfl h, fun h => by simp at h⟩
        · push_neg at hC
          rw [observe_relock s _ _ _ hN hL (hC hN).2 hT]
          refine ⟨fun _ _ => ?_, fun _ => le_refl _⟩
          have := hstart hL
          simp only [DebounceState.locked_until]
          linarith
      · rw [observe_middwell s _ _ _ hC hL hT]
        exact ⟨fun _ _ => le_refl _, hstart⟩
    · have hL' : s.detection_locked = false := by
        cases hb : s.detection_locked
        · rfl
        · exact absurd hb hL
      by_cases hN : new_detection_state_simple o.classification o.confidence = Tier.none
      · rw [observe_noop s _ _ _ hN hL']
        exact ⟨fun _ h => absurd rfl h, fun h => by rw [hL'] at h; cases h⟩
      · exact absurd ⟨hN, Or.inl hL'⟩ hC

/-- While the tier stays non-NONE along a chronological run, the lock
deadline never decreases. -/
theorem chain_lock_mono (obs : List Obs) (s : DebounceState) (t : ℚ)
    (hc : Chrono t obs) (hInv : LockTierInv s)
    (hstart : s.detection_locked = true → s.detection_timer_start ≤ t) :
    List.Chain' (fun a b => a.last_detection_state ≠ Tier.none →
      b.last_detection_state ≠ Tier.none → a.locked_until ≤ b.locked_until)
      (states s obs) := by
  induction obs generalizing s t with
  | nil => simp [states]
  | cons o rest ih =>
      obtain ⟨l, hl⟩ := states_head (stepObs s o) rest
      have hstart' : s.detection_locked = true → s.detection_timer_start ≤ o.now :=
        fun h => le_trans (hstart h) hc.1
      have hm := step_mono s o hInv hstart'
      rw [states, hl, List.chain'_cons]
      constructor
      · exact hm.1
      · rw [← hl]
        exact ih (stepObs s o) o.now hc.2
          (lockTierInv_step s o.classification o.confidence o.now hInv) hm.2

/-- C5: along any run from the initial state whose `now` values are
chronological, every write of the lock deadline sets it to
`now + dwell`, hence at or after that call's `now`; and the deadline
never decreases between consecutive states that both display a
non-NONE tier. -/
theorem C5_monotonic_lock (obs : List Obs) (t0 : ℚ) (hc : Chrono t0 obs) :
    (∀ trip ∈ runTriples initState obs,
      trip.2.2.detection_timer_start = trip.1.detection_timer_start ∨
        (trip.2.2.locked_until = trip.2.1.now + trip.1.detection_timer_duration ∧
          trip.2.1.now ≤ trip.2.2.locked_until)) ∧
    List.Chain' (fun a b => a.last_detection_state ≠ Tier.none →
      b.last_detection_state ≠ Tier.none → a.locked_until ≤ b.locked_until)
      (states initState obs) :=
  ⟨runTriples_lock_deadline obs initState (by norm_num [initState]),
   chain_lock_mono obs initState t0 hc (by decide)
     (fun h => by rw [initState] at h; cases h)⟩

theorem C5_monotonic_lock_witness :
    Chrono 0 [Obs.mk "elephant" (17/20) 0, Obs.mk "negative" (1/10) 2] ∧
    ((∀ trip ∈ runTriples initState [Obs.mk "elephant" (17/20) 0, Obs.mk "negative" (1/10) 2],
      trip.2.2.detection_timer_start = trip.1.detection_timer_start ∨
        (trip.2.2.locked_until = trip.2.1.now + trip.1.detection_timer_duration ∧
          trip.2.1.now ≤ trip.2.2.locked_until)) ∧
    List.Chain' (fun a b => a.last_detection_state ≠ Tier.none →
      b.last_detection_state ≠ Tier.none → a.locked_until ≤ b.locked_until)
      (states initState [Obs.mk "elephant" (17/20) 0, Obs.mk "negative" (1/10) 2])) :=
  ⟨⟨by norm_num, by norm_num, trivial⟩,
   C5_monotonic_lock [Obs.mk "elephant" (17/20) 0, Obs.mk "negative" (1/10) 2] 0
     ⟨by norm_num, by norm_num, trivial⟩⟩

/-- C6 counterexample: the tier mapping is *not* the same in every GUI
variant: at confidence 0.7 the simple/advanced mapping gives HIGH
(cutoff 0.5) while the noise-logger indicator gives MEDIUM (cutoffs
0.8/0.6). -/
theorem C6_threshold_divergence_counterexample :
    new_detection_state_simple "elephant" (7/10) = Tier.high ∧
    new_detection_state_advanced "elephant" (7/10) = Tier.high ∧
    noise_logger_indicator_tier "elephant" (7/10) = Tier.medium ∧
    noise_logger_indicator_tier "elephant" (7/10) ≠
      new_detection_state_simple "elephant" (7/10) := by
  refine ⟨by norm_num [new_detection_state_simple],
    by norm_num [new_detection_state_advanced],
    by norm_num [noise_logger_indicator_tier], ?_⟩
  rw [show noise_logger_indicator_tier "elephant" (7/10) = Tier.medium from
    by norm_num [noise_logger_indicator_tier]]
  rw [show new_detection_state_simple "elephant" (7/10) = Tier.high from
    by norm_num [new_detection_state_simple]]
  decide

/-- C6 (amended): the claimed mapping (HIGH above 0.5, MEDIUM in
(0.3, 0.5], LOW at or below 0.3 for the positive class, NONE
otherwise) is exactly the mapping of the simple and advanced GUI
variants; the noise-logger variant uses the same shape with cutoffs
0.8 and 0.6 instead. -/
theorem C6_tier_mapping (label : String) (confidence : ℚ) :
    new_detection_state_simple label confidence = spec_tier_map label confidence ∧
    new_detection_state_advanced label confidence = spec_tier_map label confidence ∧
    noise_logger_indicator_tier label confidence =
      spec_tier_map_noise label confidence := by
  refine ⟨?_, ?_, ?_⟩
  · unfold new_detection_state_simple spec_tier_map
    split_ifs <;> first | rfl | tauto | (exfalso; push_neg at *; simp_all; linarith)
  · unfold new_detection_state_advanced spec_tier_map
    split_ifs <;> first | rfl | tauto | (exfalso; push_neg at *; simp_all; linarith)
  · unfold noise_logger_indicator_tier spec_tier_map_noise
    split_ifs <;> first | rfl | tauto | (exfalso; push_neg at *; simp_all; linarith)

/-- An unlocked NONE-tier state absorbs a "negative" observation
without any change. -/
theorem noop_fixed (s : DebounceState)
    (hlast : s.last_detection_state = Tier.none)
    (hlock : s.detection_locked = false) (conf t : ℚ) :
    update_detection_display s "negative" conf t = (s, false) := by
  rw [observe_noop s "negative" conf t (nds_negative conf) hlock]
  have h : { s with last_detection_state := Tier.none } = s := by
    cases s
    simp_all
  rw [h]

/-- C7: from any invariant-satisfying state displaying NONE, any
sequence of `observe("negative", 0.0, t)` calls leaves the state
exactly as it was — no transition is ever reported and neither
`active_since` nor `locked_until` is touched. -/
theorem C7_noop_idempotent (s : DebounceState) (hInv : LockTierInv s)
    (hT : s.tier = Tier.none) (ts : List ℚ) :
    runFrom s (ts.map fun t => ⟨"negative", 0, t⟩) = s ∧
    ∀ trip ∈ runTriples s (ts.map fun t => ⟨"negative", 0, t⟩),
      trip.2.2 = trip.1 ∧
      (update_detection_display trip.1 trip.2.1.classification
        trip.2.1.confidence trip.2.1.now).2 = false := by
  have hlock : s.detection_locked = false := by
    cases hb : s.detection_locked
    · rfl
    · exact absurd hT (hInv.mp hb)
  induction ts with
  | nil => exact ⟨rfl, by intro trip h; simp [runTriples] at h⟩
  | cons t ts ih =>
      have hstep : stepObs s ⟨"negative", 0, t⟩ = s := by
        simp only [stepObs]
        rw [noop_fixed s hT hlock 0 t]
      simp only [List.map_cons, runFrom, runTriples, hstep]
      refine ⟨ih.1, ?_⟩
      intro trip h
      simp only [List.mem_cons] at h
      rcases h with rfl | h
      · exact ⟨rfl, by rw [noop_fixed s hT hlock 0 t]⟩
      · exact ih.2 trip h

theorem C7_noop_idempotent_witness :
    LockTierInv initState ∧ initState.tier = Tier.none ∧
    runFrom initState [Obs.mk "negative" 0 0, Obs.mk "negative" 0 1] = initState ∧
    ∀ trip ∈ runTriples initState [Obs.mk "negative" 0 0, Obs.mk "negative" 0 1],
      trip.2.2 = trip.1 ∧
      (update_detection_display trip.1 trip.2.1.classification
        trip.2.1.confidence trip.2.1.now).2 = false :=
  ⟨by decide, rfl,
   (C7_noop_idempotent initState (by decide) rfl [0, 1]).1,
   (C7_noop_idempotent initState (by decide) rfl [0, 1]).2⟩

/-- C8: the update is a total function — every label string, every
rational confidence (no range requirement at all) and every `now`
produce a defined result, whose dwell duration is untouched, whose
window start is the old one or `now`, and whose tier is the candidate,
the old tier, or NONE.  The source lines 464-518 are straight-line
arithmetic comparisons with no raising operation, so the embedding has
no error branch. -/
theorem C8_total (s : DebounceState) (c : String) (conf now : ℚ) :
    ∃ s' b, update_detection_display s c conf now = (s', b) ∧
      s'.detection_timer_duration = s.detection_timer_duration ∧
      (s'.detection_timer_start = s.detection_timer_start ∨
        s'.detection_timer_start = now) ∧
      (s'.last_detection_state = new_detection_state_simple c conf ∨
        s'.last_detection_state = s.last_detection_state ∨
        s'.last_detection_state = Tier.none) :=
  ⟨(update_detection_display s c conf now).1,
   (update_detection_display s c conf now).2,
   Prod.mk.eta.symm,
   step_duration s c conf now,
   step_tstart s c conf now,
   step_last s c conf now⟩

/-- C10: any observation labelled "elephant" maps to a non-NONE tier
whatever its confidence — in particular any confidence at or below
0.3, negative ones included, maps to LOW in both the simple and the
advanced GUI — and from a NONE-tier state such an observation starts a
detection episode with a full dwell lock (`locked_until = now + dwell`,
transition reported). -/
theorem C10_any_confidence_locks :
    (∀ conf : ℚ,
      new_detection_state_simple "elephant" conf ≠ Tier.none ∧
      new_detection_state_advanced "elephant" conf ≠ Tier.none ∧
      (conf ≤ 3/10 → new_detection_state_simple "elephant" conf = Tier.low ∧
        new_detection_state_advanced "elephant" conf = Tier.low)) ∧
    ∀ (s : DebounceState) (conf now : ℚ), s.tier = Tier.none →
      (update_detection_display s "elephant" conf now).1.tier =
          new_detection_state_simple "elephant" conf ∧
      (update_detection_display s "elephant" conf now).1.detection_locked = true ∧
      (update_detection_display s "elephant" conf now).1.locked_until =
          now + s.detection_timer_duration ∧
      (update_detection_display s "elephant" conf now).2 = true := by
  constructor
  · intro conf
    have hadv : new_detection_state_advanced "elephant" conf =
        new_detection_state_simple "elephant" conf := rfl
    refine ⟨nds_elephant_ne_none conf, by rw [hadv]; exact nds_elephant_ne_none conf,
      fun hle => ⟨?_, ?_⟩⟩
    · unfold new_detection_state_simple
      rw [if_pos rfl, if_neg (by intro hgt; linarith), if_neg (by intro hgt; linarith)]
    · rw [hadv]
      unfold new_detection_state_simple
      rw [if_pos rfl, if_neg (by intro hgt; linarith), if_neg (by intro hgt; linarith)]
  · intro s conf now hT
    have h1 := nds_elephant_ne_none conf
    have h2 : new_detection_state_simple "elephant" conf ≠ s.last_detection_state := by
      rw [show s.last_detection_state = Tier.none from hT]
      exact h1
    rw [observe_new_episode s "elephant" conf now h1 (Or.inr h2)]
    exact ⟨rfl, rfl, rfl, rfl⟩

theorem C10_any_confidence_locks_witness :
    (new_detection_state_simple "elephant" (-1) ≠ Tier.none ∧
      ((-1 : ℚ) ≤ 3/10 → new_detection_state_simple "elephant" (-1) = Tier.low ∧
        new_detection_state_advanced "elephant" (-1) = Tier.low)) ∧
    initState.tier = Tier.none ∧
    (update_detection_display initState "elephant" (-1) 0).1.tier =
        new_detection_state_simple "elephant" (-1) ∧
    (update_detection_display initState "elephant" (-1) 0).1.detection_locked = true ∧
    (update_detection_display initState "elephant" (-1) 0).1.locked_until =
        0 + initState.detection_timer_duration ∧
    (update_detection_display initState "elephant" (-1) 0).2 = true :=
  ⟨⟨(C10_any_confidence_locks.1 (-1)).1, fun h => (C10_any_confidence_locks.1 (-1)).2.2 h⟩,
   rfl, C10_any_confidence_locks.2 initState (-1) 0 rfl⟩
